import Mathlib

/-!
Shallow embedding of the `bevy_keyboard_shortcuts` crate (src/lib.rs).

Keys (`KeyCode`) are modelled by their canonical Debug name, the string the
source obtains with `format!("{:?}", key)`; the live keyboard snapshot
(`ButtonInput<KeyCode>`) is modelled by its two query functions `pressed`
and `just_pressed`.  The `KEY_DISPLAY_MAP` static is modelled as the
association list of its insertions in source order (the map has no
duplicate keys, so ordered lookup agrees with the `HashMap`).  The builder
methods carry an explicit `dbg : Bool` for the build profile: `debug_assert!`
fires (modelled as `none`, the halted construction) only when `dbg = true`
and its condition is violated; otherwise the method returns `some` of the
updated group, exactly as the Rust code does in that profile.
-/

namespace BevyKeyboardShortcuts

/-- A key is identified by its canonical (Debug-format) name. -/
abbrev KeyCode := String

/-- The live keyboard snapshot supplied by the host each tick:
which keys are currently down, and which transitioned down this tick. -/
structure ButtonInput where
  pressed : KeyCode → Bool
  just_pressed : KeyCode → Bool

/-- `enum ModifierType` of src/lib.rs (lines 124-130). -/
inductive ModifierType where
  | RequirePressed
  | RequireNotPressed
deriving DecidableEq

/-- `ModifierType::matches` (src/lib.rs lines 142-147). -/
def ModifierType.matches : ModifierType → Bool → Bool
  | .RequirePressed, pressed => pressed
  | .RequireNotPressed, pressed => !pressed

/-- `struct Modifiers` of src/lib.rs (lines 159-173); `None` = ignored. -/
structure Modifiers where
  control : Option ModifierType := none
  alt : Option ModifierType := none
  shift : Option ModifierType := none
  super_key : Option ModifierType := none
deriving DecidableEq

/-- `Modifiers::none` (src/lib.rs lines 180-185). -/
def Modifiers.none (m : Modifiers) : Bool :=
  m.control.isNone && m.alt.isNone && m.shift.isNone && m.super_key.isNone

/-- `Modifiers::matches_modifier` (src/lib.rs lines 210-215). -/
def Modifiers.matches_modifier : Option ModifierType → Bool → Bool
  | Option.none, _ => true
  | Option.some mt, pressed => mt.matches pressed

/-- `Modifiers::pressed` (src/lib.rs lines 196-207). -/
def Modifiers.pressed (m : Modifiers) (keys : ButtonInput) : Bool :=
  let control_pressed := keys.pressed "ControlLeft" || keys.pressed "ControlRight"
  let alt_pressed := keys.pressed "AltLeft" || keys.pressed "AltRight"
  let shift_pressed := keys.pressed "ShiftLeft" || keys.pressed "ShiftRight"
  let super_pressed := keys.pressed "SuperLeft" || keys.pressed "SuperRight"
  Modifiers.matches_modifier m.control control_pressed &&
    Modifiers.matches_modifier m.alt alt_pressed &&
    Modifiers.matches_modifier m.shift shift_pressed &&
    Modifiers.matches_modifier m.super_key super_pressed

/-- `impl fmt::Display for Modifiers` (src/lib.rs lines 218-237):
the `RequirePressed` channels' names, in the fixed order
control, alt, shift, super, joined by " + ". -/
def Modifiers.displayString (m : Modifiers) : String :=
  let parts : List String :=
    (if m.control = some ModifierType.RequirePressed then ["Ctrl"] else []) ++
    (if m.alt = some ModifierType.RequirePressed then ["Alt"] else []) ++
    (if m.shift = some ModifierType.RequirePressed then ["Shift"] else []) ++
    (if m.super_key = some ModifierType.RequirePressed then ["Super"] else [])
  String.intercalate " + " parts

/-- The `KEY_DISPLAY_MAP` static (src/lib.rs lines 669-848), as the list of
its insertions in source order.  Ranged insertions (letters, digits, numpad
digits, function keys) are generated exactly as the source's loops do. -/
def KEY_DISPLAY_MAP : List (String × String) :=
  [("Backquote", "`"), ("Backslash", "\\"), ("BracketLeft", "["),
   ("BracketRight", "]"), ("Comma", ","), ("Equal", "="), ("Minus", "-"),
   ("Period", "."), ("Quote", String.singleton (Char.ofNat 39)),
   ("Semicolon", ";"), ("Slash", "/"),
   ("Backspace", "⌫"), ("Delete", "⌦"), ("Enter", "↵"), ("Escape", "Esc"),
   ("Tab", "⇥"), ("Space", "Space"),
   ("ArrowUp", "↑"), ("ArrowDown", "↓"), ("ArrowLeft", "←"),
   ("ArrowRight", "→"), ("Home", "Home"), ("End", "End"),
   ("PageUp", "PgUp"), ("PageDown", "PgDn"),
   ("CapsLock", "CapsLock"), ("NumLock", "NumLock"),
   ("ScrollLock", "ScrollLock"),
   ("PrintScreen", "PrtScr"), ("Pause", "Pause"), ("ContextMenu", "Menu"),
   ("Insert", "Insert")] ++
  (List.range 26).map (fun i =>
    ("Key".push (Char.ofNat (65 + i)), String.singleton (Char.ofNat (65 + i)))) ++
  (List.range 10).map (fun d => ("Digit" ++ toString d, toString d)) ++
  (List.range 10).map (fun d => ("Numpad" ++ toString d, "Num " ++ toString d)) ++
  [("NumpadAdd", "Num +"), ("NumpadSubtract", "Num -"),
   ("NumpadMultiply", "Num *"), ("NumpadDivide", "Num /"),
   ("NumpadDecimal", "Num ."), ("NumpadEqual", "Num ="),
   ("NumpadEnter", "Num Enter"), ("NumpadComma", "Num ,"),
   ("NumpadBackspace", "Num ⌫"), ("NumpadClear", "Num Clear"),
   ("NumpadClearEntry", "Num CE"), ("NumpadHash", "Num #"),
   ("NumpadParenLeft", "Num ("), ("NumpadParenRight", "Num )"),
   ("NumpadStar", "Num *"), ("NumpadMemoryAdd", "Num M+"),
   ("NumpadMemoryClear", "Num MC"), ("NumpadMemoryRecall", "Num MR"),
   ("NumpadMemoryStore", "Num MS"), ("NumpadMemorySubtract", "Num M-")] ++
  (List.range 35).map (fun i =>
    ("F" ++ toString (i + 1), "F" ++ toString (i + 1))) ++
  [("MediaPlayPause", "Play/Pause"), ("MediaStop", "Stop"),
   ("MediaTrackNext", "Next Track"), ("MediaTrackPrevious", "Prev Track"),
   ("MediaSelect", "Media Select"), ("AudioVolumeUp", "Vol+"),
   ("AudioVolumeDown", "Vol-"), ("AudioVolumeMute", "Mute"),
   ("BrowserBack", "Browser Back"), ("BrowserForward", "Browser Forward"),
   ("BrowserRefresh", "Refresh"), ("BrowserStop", "Browser Stop"),
   ("BrowserSearch", "Browser Search"), ("BrowserFavorites", "Favorites"),
   ("BrowserHome", "Browser Home"),
   ("LaunchMail", "Mail"), ("LaunchApp1", "App1"), ("LaunchApp2", "App2"),
   ("Copy", "Copy"), ("Cut", "Cut"), ("Paste", "Paste"), ("Undo", "Undo"),
   ("Find", "Find"), ("Open", "Open"), ("Select", "Select"),
   ("ControlLeft", "Ctrl"), ("ControlRight", "Ctrl"),
   ("AltLeft", "Alt"), ("AltRight", "Alt"),
   ("ShiftLeft", "Shift"), ("ShiftRight", "Shift"),
   ("SuperLeft", "Super"), ("SuperRight", "Super"),
   ("IntlBackslash", "Intl \\"), ("IntlRo", "Ro"), ("IntlYen", "¥"),
   ("Lang1", "Lang1"), ("Lang2", "Lang2"), ("Lang3", "Lang3"),
   ("Lang4", "Lang4"), ("Lang5", "Lang5"), ("KanaMode", "Kana"),
   ("Hiragana", "Hiragana"), ("Katakana", "Katakana"),
   ("Convert", "Convert"), ("NonConvert", "NonConvert"),
   ("Again", "Again"), ("Resume", "Resume"), ("Suspend", "Suspend"),
   ("Abort", "Abort"), ("Props", "Props"), ("Help", "Help"),
   ("Power", "Power"), ("Sleep", "Sleep"), ("WakeUp", "WakeUp"),
   ("Eject", "⏏"),
   ("Fn", "Fn"), ("FnLock", "FnLock"), ("Turbo", "Turbo"),
   ("Meta", "Meta"), ("Hyper", "Hyper")]

/-- `KEY_DISPLAY_MAP.get(name)`: lookup by key name in the table. -/
def keyDisplayGet (k : String) : Option String :=
  (KEY_DISPLAY_MAP.find? (fun e => e.1 == k)).map (fun e => e.2)

/-- `struct Shortcut` of src/lib.rs (lines 111-118). -/
structure Shortcut where
  key : KeyCode
  modifiers : Modifiers
deriving DecidableEq

/-- `Shortcut::key_str` (src/lib.rs lines 244-251): look the key's Debug
name up in `KEY_DISPLAY_MAP`, falling back to the name itself on a miss. -/
def Shortcut.key_str (s : Shortcut) : String :=
  (keyDisplayGet s.key).getD s.key

/-- `Shortcut::pressed` (src/lib.rs lines 265-267). -/
def Shortcut.pressed (s : Shortcut) (keys : ButtonInput) : Bool :=
  keys.pressed s.key && s.modifiers.pressed keys

/-- `Shortcut::just_pressed` (src/lib.rs lines 281-283). -/
def Shortcut.just_pressed (s : Shortcut) (keys : ButtonInput) : Bool :=
  keys.just_pressed s.key && s.modifiers.pressed keys

/-- `impl fmt::Display for Shortcut` (src/lib.rs lines 286-293): when the
modifier set is not entirely absent, write the modifiers' display and " + ",
then always write the key's display name. -/
def Shortcut.displayString (s : Shortcut) : String :=
  (if s.modifiers.none then "" else s.modifiers.displayString ++ " + ") ++ s.key_str

/-- `struct Shortcuts` of src/lib.rs (lines 328-342). -/
structure Shortcuts where
  shortcuts : List Shortcut
  repeats : Bool
deriving DecidableEq

/-- `Shortcuts::single_press` (src/lib.rs lines 362-373). -/
def Shortcuts.single_press (keys : List KeyCode) : Shortcuts :=
  { shortcuts := keys.map (fun k => { key := k, modifiers := {} }),
    repeats := false }

/-- `Shortcuts::repeating` (src/lib.rs lines 392-403). -/
def Shortcuts.repeating (keys : List KeyCode) : Shortcuts :=
  { shortcuts := keys.map (fun k => { key := k, modifiers := {} }),
    repeats := true }

/-- `Shortcuts::with_ctrl` (src/lib.rs lines 419-428).  `dbg` is the build
profile; `none` models the `debug_assert!` halting construction. -/
def Shortcuts.with_ctrl (dbg : Bool) (s : Shortcuts) : Option Shortcuts :=
  match s.shortcuts with
  | [] => some s
  | sc :: rest =>
    if dbg && sc.modifiers.control.isSome then none
    else
      let sc2 := { sc with modifiers :=
        { sc.modifiers with control := some ModifierType.RequirePressed } }
      some { shortcuts := sc2 :: rest, repeats := s.repeats }

/-- `Shortcuts::with_alt` (src/lib.rs lines 444-450). -/
def Shortcuts.with_alt (dbg : Bool) (s : Shortcuts) : Option Shortcuts :=
  match s.shortcuts with
  | [] => some s
  | sc :: rest =>
    if dbg && sc.modifiers.alt.isSome then none
    else
      let sc2 := { sc with modifiers :=
        { sc.modifiers with alt := some ModifierType.RequirePressed } }
      some { shortcuts := sc2 :: rest, repeats := s.repeats }

/-- `Shortcuts::with_shift` (src/lib.rs lines 466-475). -/
def Shortcuts.with_shift (dbg : Bool) (s : Shortcuts) : Option Shortcuts :=
  match s.shortcuts with
  | [] => some s
  | sc :: rest =>
    if dbg && sc.modifiers.shift.isSome then none
    else
      let sc2 := { sc with modifiers :=
        { sc.modifiers with shift := some ModifierType.RequirePressed } }
      some { shortcuts := sc2 :: rest, repeats := s.repeats }

/-- `Shortcuts::with_super` (src/lib.rs lines 491-500). -/
def Shortcuts.with_super (dbg : Bool) (s : Shortcuts) : Option Shortcuts :=
  match s.shortcuts with
  | [] => some s
  | sc :: rest =>
    if dbg && sc.modifiers.super_key.isSome then none
    else
      let sc2 := { sc with modifiers :=
        { sc.modifiers with super_key := some ModifierType.RequirePressed } }
      some { shortcuts := sc2 :: rest, repeats := s.repeats }

/-- `Shortcuts::without_ctrl` (src/lib.rs lines 520-529). -/
def Shortcuts.without_ctrl (dbg : Bool) (s : Shortcuts) : Option Shortcuts :=
  match s.shortcuts with
  | [] => some s
  | sc :: rest =>
    if dbg && sc.modifiers.control.isSome then none
    else
      let sc2 := { sc with modifiers :=
        { sc.modifiers with control := some ModifierType.RequireNotPressed } }
      some { shortcuts := sc2 :: rest, repeats := s.repeats }

/-- `Shortcuts::without_alt` (src/lib.rs lines 548-554). -/
def Shortcuts.without_alt (dbg : Bool) (s : Shortcuts) : Option Shortcuts :=
  match s.shortcuts with
  | [] => some s
  | sc :: rest =>
    if dbg && sc.modifiers.alt.isSome then none
    else
      let sc2 := { sc with modifiers :=
        { sc.modifiers with alt := some ModifierType.RequireNotPressed } }
      some { shortcuts := sc2 :: rest, repeats := s.repeats }

/-- `Shortcuts::without_shift` (src/lib.rs lines 573-582). -/
def Shortcuts.without_shift (dbg : Bool) (s : Shortcuts) : Option Shortcuts :=
  match s.shortcuts with
  | [] => some s
  | sc :: rest =>
    if dbg && sc.modifiers.shift.isSome then none
    else
      let sc2 := { sc with modifiers :=
        { sc.modifiers with shift := some ModifierType.RequireNotPressed } }
      some { shortcuts := sc2 :: rest, repeats := s.repeats }

/-- `Shortcuts::without_super` (src/lib.rs lines 601-610). -/
def Shortcuts.without_super (dbg : Bool) (s : Shortcuts) : Option Shortcuts :=
  match s.shortcuts with
  | [] => some s
  | sc :: rest =>
    if dbg && sc.modifiers.super_key.isSome then none
    else
      let sc2 := { sc with modifiers :=
        { sc.modifiers with super_key := some ModifierType.RequireNotPressed } }
      some { shortcuts := sc2 :: rest, repeats := s.repeats }

/-- `Shortcuts::pressed` (src/lib.rs lines 640-647). -/
def Shortcuts.pressed (s : Shortcuts) (keys : ButtonInput) : Bool :=
  if s.repeats then
    s.shortcuts.any (fun sc => sc.pressed keys)
  else
    s.shortcuts.any (fun sc => sc.just_pressed keys)

/-- `impl fmt::Display for Shortcuts` (src/lib.rs lines 649-660). -/
def Shortcuts.displayString (s : Shortcuts) : String :=
  String.intercalate ", " (s.shortcuts.map Shortcut.displayString)

end BevyKeyboardShortcuts

namespace BevyKeyboardShortcuts

/-- Spec formula for one modifier channel (written from the spec's words, for
comparison with `Modifiers.pressed`): an absent requirement always matches,
`RequirePressed` matches iff the channel is down, `RequireNotPressed` matches
iff it is not down. -/
def requirementMatchesSpec : Option ModifierType → Bool → Prop
  | Option.none, _ => True
  | Option.some ModifierType.RequirePressed, down => down = true
  | Option.some ModifierType.RequireNotPressed, down => down = false

/-- Everything of a single alternative except its control channel is kept. -/
def onlyControlChanged (sc sc2 : Shortcut) : Prop :=
  sc2.key = sc.key ∧ sc2.modifiers.alt = sc.modifiers.alt ∧
  sc2.modifiers.shift = sc.modifiers.shift ∧
  sc2.modifiers.super_key = sc.modifiers.super_key

/-- Everything of a single alternative except its alt channel is kept. -/
def onlyAltChanged (sc sc2 : Shortcut) : Prop :=
  sc2.key = sc.key ∧ sc2.modifiers.control = sc.modifiers.control ∧
  sc2.modifiers.shift = sc.modifiers.shift ∧
  sc2.modifiers.super_key = sc.modifiers.super_key

/-- Everything of a single alternative except its shift channel is kept. -/
def onlyShiftChanged (sc sc2 : Shortcut) : Prop :=
  sc2.key = sc.key ∧ sc2.modifiers.control = sc.modifiers.control ∧
  sc2.modifiers.alt = sc.modifiers.alt ∧
  sc2.modifiers.super_key = sc.modifiers.super_key

/-- Everything of a single alternative except its super channel is kept. -/
def onlySuperChanged (sc sc2 : Shortcut) : Prop :=
  sc2.key = sc.key ∧ sc2.modifiers.control = sc.modifiers.control ∧
  sc2.modifiers.alt = sc.modifiers.alt ∧
  sc2.modifiers.shift = sc.modifiers.shift

lemma matches_modifier_iff (req : Option ModifierType) (down : Bool) :
    Modifiers.matches_modifier req down = true ↔ requirementMatchesSpec req down := by
  cases req with
  | none => simp [Modifiers.matches_modifier, requirementMatchesSpec]
  | some mt =>
    cases mt <;> cases down <;>
      simp [Modifiers.matches_modifier, ModifierType.matches, requirementMatchesSpec]

/-- C4: a modifier policy holds iff each of its four channels individually
matches, where a channel is "down" iff its left or right physical key is
down, an absent channel always matches, `RequirePressed` matches iff down,
and `RequireNotPressed` matches iff not down. -/
theorem modifiers_pressed_iff_all_channels (m : Modifiers) (keys : ButtonInput) :
    m.pressed keys = true ↔
      (requirementMatchesSpec m.control
          (keys.pressed "ControlLeft" || keys.pressed "ControlRight") ∧
       requirementMatchesSpec m.alt
          (keys.pressed "AltLeft" || keys.pressed "AltRight") ∧
       requirementMatchesSpec m.shift
          (keys.pressed "ShiftLeft" || keys.pressed "ShiftRight") ∧
       requirementMatchesSpec m.super_key
          (keys.pressed "SuperLeft" || keys.pressed "SuperRight")) := by
  simp only [Modifiers.pressed, Bool.and_eq_true, matches_modifier_iff]
  tauto

/-- C3: a group is active iff, when `repeats` is true, some alternative's
primary key is down and its modifier policy holds, and, when `repeats` is
false, some alternative's primary key was just pressed this tick and its
modifier policy holds. -/
theorem group_pressed_characterization (s : Shortcuts) (keys : ButtonInput) :
    s.pressed keys = true ↔
      (if s.repeats then
        ∃ sc ∈ s.shortcuts, keys.pressed sc.key = true ∧ sc.modifiers.pressed keys = true
       else
        ∃ sc ∈ s.shortcuts, keys.just_pressed sc.key = true ∧ sc.modifiers.pressed keys = true) := by
  cases hr : s.repeats <;>
    simp [Shortcuts.pressed, hr, Shortcut.pressed, Shortcut.just_pressed,
      List.any_eq_true, Bool.and_eq_true]

/-- C6: a group with no alternatives is never active, for any snapshot
(including one where every key is down and just-pressed) and either value of
the repeats flag. -/
theorem empty_group_never_active (keys : ButtonInput) (r : Bool) :
    Shortcuts.pressed ⟨[], r⟩ keys = false := by
  cases r <;> rfl

/-- C7: key display-name resolution is total: a table hit returns the mapped
display string, a miss returns the canonical name unmodified. -/
theorem key_str_lookup_or_fallback (sc : Shortcut) :
    (∀ v, keyDisplayGet sc.key = some v → sc.key_str = v) ∧
    (keyDisplayGet sc.key = Option.none → sc.key_str = sc.key) := by
  constructor
  · intro v h
    simp [Shortcut.key_str, h]
  · intro h
    simp [Shortcut.key_str, h]

theorem key_str_lookup_or_fallback_witness :
    Shortcut.key_str ⟨"KeyA", {}⟩ = "A" ∧
    Shortcut.key_str ⟨"UnknownKey", {}⟩ = "UnknownKey" :=
  ⟨(key_str_lookup_or_fallback ⟨"KeyA", {}⟩).1 "A" rfl,
   (key_str_lookup_or_fallback ⟨"UnknownKey", {}⟩).2 rfl⟩

/-- C8: a group renders as its alternatives' labels, in list order, joined
with ", ", and an empty group renders as the empty string. -/
theorem group_display_joins_alternatives (s : Shortcuts) :
    Shortcuts.displayString s =
      String.intercalate ", " (s.shortcuts.map Shortcut.displayString) ∧
    Shortcuts.displayString ⟨[], s.repeats⟩ = "" :=
  ⟨rfl, rfl⟩

/-- C10: on a group with an empty alternatives list every builder method, in
either build profile, returns the group unchanged and never halts. -/
theorem builders_on_empty_group_noop (dbg r : Bool) :
    Shortcuts.with_ctrl dbg ⟨[], r⟩ = some ⟨[], r⟩ ∧
    Shortcuts.with_alt dbg ⟨[], r⟩ = some ⟨[], r⟩ ∧
    Shortcuts.with_shift dbg ⟨[], r⟩ = some ⟨[], r⟩ ∧
    Shortcuts.with_super dbg ⟨[], r⟩ = some ⟨[], r⟩ ∧
    Shortcuts.without_ctrl dbg ⟨[], r⟩ = some ⟨[], r⟩ ∧
    Shortcuts.without_alt dbg ⟨[], r⟩ = some ⟨[], r⟩ ∧
    Shortcuts.without_shift dbg ⟨[], r⟩ = some ⟨[], r⟩ ∧
    Shortcuts.without_super dbg ⟨[], r⟩ = some ⟨[], r⟩ :=
  ⟨rfl, rfl, rfl, rfl, rfl, rfl, rfl, rfl⟩

end BevyKeyboardShortcuts

namespace BevyKeyboardShortcuts

/-- C1 (code evaluation at the failing input): a shortcut whose only
constraint is a forbidden modifier renders with a dangling " + " separator
(`Modifiers.none` is false, yet no channel is rendered), while
require-pressed constraints and the neutral policy render as specified. -/
theorem shortcut_display_dangling_separator :
    Shortcut.displayString
        ⟨"KeyS", ⟨some ModifierType.RequireNotPressed, Option.none, Option.none, Option.none⟩⟩ =
      " + S" ∧
    Shortcut.displayString
        ⟨"KeyS", ⟨some ModifierType.RequirePressed, Option.none, Option.none, Option.none⟩⟩ =
      "Ctrl + S" ∧
    Shortcut.displayString
        ⟨"KeyS", ⟨Option.none, Option.none, Option.none, Option.none⟩⟩ = "S" :=
  ⟨rfl, rfl, rfl⟩

/-- C2 (counterexample): build "KeyS" with control already set to
`RequireNotPressed`; calling `with_ctrl` in a non-development build does not
keep the original value but overwrites the channel with `RequirePressed`. -/
theorem release_duplicate_ctrl_overwrites_cex :
    Shortcuts.without_ctrl false (Shortcuts.single_press ["KeyS"]) =
      some ⟨[⟨"KeyS", ⟨some ModifierType.RequireNotPressed, Option.none, Option.none, Option.none⟩⟩], false⟩ ∧
    Shortcuts.with_ctrl false
        ⟨[⟨"KeyS", ⟨some ModifierType.RequireNotPressed, Option.none, Option.none, Option.none⟩⟩], false⟩ =
      some ⟨[⟨"KeyS", ⟨some ModifierType.RequirePressed, Option.none, Option.none, Option.none⟩⟩], false⟩ ∧
    (some ModifierType.RequirePressed ≠ some ModifierType.RequireNotPressed) :=
  ⟨rfl, rfl, by decide⟩

/-- C2 (amended): when the first alternative's targeted channel is already
set, the two builder methods that set that channel halt construction
(`none`) in development builds; in non-development builds no builder ever
halts, and it overwrites the channel with the newly requested value (last
write wins). -/
theorem duplicate_modifier_channel_behavior (sc : Shortcut) (rest : List Shortcut) (r : Bool) :
    (sc.modifiers.control.isSome = true →
       Shortcuts.with_ctrl true ⟨sc :: rest, r⟩ = Option.none ∧
       Shortcuts.without_ctrl true ⟨sc :: rest, r⟩ = Option.none) ∧
    (sc.modifiers.alt.isSome = true →
       Shortcuts.with_alt true ⟨sc :: rest, r⟩ = Option.none ∧
       Shortcuts.without_alt true ⟨sc :: rest, r⟩ = Option.none) ∧
    (sc.modifiers.shift.isSome = true →
       Shortcuts.with_shift true ⟨sc :: rest, r⟩ = Option.none ∧
       Shortcuts.without_shift true ⟨sc :: rest, r⟩ = Option.none) ∧
    (sc.modifiers.super_key.isSome = true →
       Shortcuts.with_super true ⟨sc :: rest, r⟩ = Option.none ∧
       Shortcuts.without_super true ⟨sc :: rest, r⟩ = Option.none) ∧
    (Shortcuts.with_ctrl false ⟨sc :: rest, r⟩ =
       some ⟨{ sc with modifiers := { sc.modifiers with control := some ModifierType.RequirePressed } } :: rest, r⟩ ∧
     Shortcuts.with_alt false ⟨sc :: rest, r⟩ =
       some ⟨{ sc with modifiers := { sc.modifiers with alt := some ModifierType.RequirePressed } } :: rest, r⟩ ∧
     Shortcuts.with_shift false ⟨sc :: rest, r⟩ =
       some ⟨{ sc with modifiers := { sc.modifiers with shift := some ModifierType.RequirePressed } } :: rest, r⟩ ∧
     Shortcuts.with_super false ⟨sc :: rest, r⟩ =
       some ⟨{ sc with modifiers := { sc.modifiers with super_key := some ModifierType.RequirePressed } } :: rest, r⟩ ∧
     Shortcuts.without_ctrl false ⟨sc :: rest, r⟩ =
       some ⟨{ sc with modifiers := { sc.modifiers with control := some ModifierType.RequireNotPressed } } :: rest, r⟩ ∧
     Shortcuts.without_alt false ⟨sc :: rest, r⟩ =
       some ⟨{ sc with modifiers := { sc.modifiers with alt := some ModifierType.RequireNotPressed } } :: rest, r⟩ ∧
     Shortcuts.without_shift false ⟨sc :: rest, r⟩ =
       some ⟨{ sc with modifiers := { sc.modifiers with shift := some ModifierType.RequireNotPressed } } :: rest, r⟩ ∧
     Shortcuts.without_super false ⟨sc :: rest, r⟩ =
       some ⟨{ sc with modifiers := { sc.modifiers with super_key := some ModifierType.RequireNotPressed } } :: rest, r⟩) :=
  ⟨fun hc => ⟨by simp [Shortcuts.with_ctrl, hc], by simp [Shortcuts.without_ctrl, hc]⟩,
   fun ha => ⟨by simp [Shortcuts.with_alt, ha], by simp [Shortcuts.without_alt, ha]⟩,
   fun hs => ⟨by simp [Shortcuts.with_shift, hs], by simp [Shortcuts.without_shift, hs]⟩,
   fun hk => ⟨by simp [Shortcuts.with_super, hk], by simp [Shortcuts.without_super, hk]⟩,
   rfl, rfl, rfl, rfl, rfl, rfl, rfl, rfl⟩

theorem duplicate_modifier_channel_behavior_witness :
    (Shortcuts.with_ctrl true
        ⟨[⟨"KeyS", ⟨some ModifierType.RequirePressed, Option.none, Option.none, Option.none⟩⟩], false⟩ =
          Option.none ∧
     Shortcuts.without_ctrl true
        ⟨[⟨"KeyS", ⟨some ModifierType.RequirePressed, Option.none, Option.none, Option.none⟩⟩], false⟩ =
          Option.none) ∧
    (Shortcuts.with_alt true
        ⟨[⟨"KeyA", ⟨some ModifierType.RequirePressed, some ModifierType.RequirePressed,
            some ModifierType.RequirePressed, some ModifierType.RequirePressed⟩⟩], false⟩ =
          Option.none ∧
     Shortcuts.without_alt true
        ⟨[⟨"KeyA", ⟨some ModifierType.RequirePressed, some ModifierType.RequirePressed,
            some ModifierType.RequirePressed, some ModifierType.RequirePressed⟩⟩], false⟩ =
          Option.none) ∧
    (Shortcuts.with_shift true
        ⟨[⟨"KeyA", ⟨some ModifierType.RequirePressed, some ModifierType.RequirePressed,
            some ModifierType.RequirePressed, some ModifierType.RequirePressed⟩⟩], false⟩ =
          Option.none ∧
     Shortcuts.without_shift true
        ⟨[⟨"KeyA", ⟨some ModifierType.RequirePressed, some ModifierType.RequirePressed,
            some ModifierType.RequirePressed, some ModifierType.RequirePressed⟩⟩], false⟩ =
          Option.none) ∧
    (Shortcuts.with_super true
        ⟨[⟨"KeyA", ⟨some ModifierType.RequirePressed, some ModifierType.RequirePressed,
            some ModifierType.RequirePressed, some ModifierType.RequirePressed⟩⟩], false⟩ =
          Option.none ∧
     Shortcuts.without_super true
        ⟨[⟨"KeyA", ⟨some ModifierType.RequirePressed, some ModifierType.RequirePressed,
            some ModifierType.RequirePressed, some ModifierType.RequirePressed⟩⟩], false⟩ =
          Option.none) ∧
    Shortcuts.without_ctrl false
        ⟨[⟨"KeyS", ⟨some ModifierType.RequirePressed, Option.none, Option.none, Option.none⟩⟩], false⟩ =
      some ⟨[⟨"KeyS", ⟨some ModifierType.RequireNotPressed, Option.none, Option.none, Option.none⟩⟩], false⟩ :=
  ⟨(duplicate_modifier_channel_behavior
      ⟨"KeyS", ⟨some ModifierType.RequirePressed, Option.none, Option.none, Option.none⟩⟩
      [] false).1 rfl,
   (duplicate_modifier_channel_behavior
      ⟨"KeyA", ⟨some ModifierType.RequirePressed, some ModifierType.RequirePressed,
        some ModifierType.RequirePressed, some ModifierType.RequirePressed⟩⟩
      [] false).2.1 rfl,
   (duplicate_modifier_channel_behavior
      ⟨"KeyA", ⟨some ModifierType.RequirePressed, some ModifierType.RequirePressed,
        some ModifierType.RequirePressed, some ModifierType.RequirePressed⟩⟩
      [] false).2.2.1 rfl,
   (duplicate_modifier_channel_behavior
      ⟨"KeyA", ⟨some ModifierType.RequirePressed, some ModifierType.RequirePressed,
        some ModifierType.RequirePressed, some ModifierType.RequirePressed⟩⟩
      [] false).2.2.2.1 rfl,
   (duplicate_modifier_channel_behavior
      ⟨"KeyS", ⟨some ModifierType.RequirePressed, Option.none, Option.none, Option.none⟩⟩
      [] false).2.2.2.2.2.2.2.2.1⟩

end BevyKeyboardShortcuts

namespace BevyKeyboardShortcuts

/-- C5: in either build profile, whenever a modifier builder method returns
a group, that group keeps the repeats flag, keeps every alternative after
the first (so order and count are preserved), and changes exactly the named
channel of the first alternative, keeping its key and other three channels. -/
theorem builders_touch_only_first_alt (dbg : Bool) (sc : Shortcut) (rest : List Shortcut) (r : Bool) :
    (∀ s2, Shortcuts.with_ctrl dbg ⟨sc :: rest, r⟩ = some s2 →
      ∃ sc2, s2.shortcuts = sc2 :: rest ∧ s2.repeats = r ∧
        sc2.modifiers.control = some ModifierType.RequirePressed ∧ onlyControlChanged sc sc2) ∧
    (∀ s2, Shortcuts.with_alt dbg ⟨sc :: rest, r⟩ = some s2 →
      ∃ sc2, s2.shortcuts = sc2 :: rest ∧ s2.repeats = r ∧
        sc2.modifiers.alt = some ModifierType.RequirePressed ∧ onlyAltChanged sc sc2) ∧
    (∀ s2, Shortcuts.with_shift dbg ⟨sc :: rest, r⟩ = some s2 →
      ∃ sc2, s2.shortcuts = sc2 :: rest ∧ s2.repeats = r ∧
        sc2.modifiers.shift = some ModifierType.RequirePressed ∧ onlyShiftChanged sc sc2) ∧
    (∀ s2, Shortcuts.with_super dbg ⟨sc :: rest, r⟩ = some s2 →
      ∃ sc2, s2.shortcuts = sc2 :: rest ∧ s2.repeats = r ∧
        sc2.modifiers.super_key = some ModifierType.RequirePressed ∧ onlySuperChanged sc sc2) ∧
    (∀ s2, Shortcuts.without_ctrl dbg ⟨sc :: rest, r⟩ = some s2 →
      ∃ sc2, s2.shortcuts = sc2 :: rest ∧ s2.repeats = r ∧
        sc2.modifiers.control = some ModifierType.RequireNotPressed ∧ onlyControlChanged sc sc2) ∧
    (∀ s2, Shortcuts.without_alt dbg ⟨sc :: rest, r⟩ = some s2 →
      ∃ sc2, s2.shortcuts = sc2 :: rest ∧ s2.repeats = r ∧
        sc2.modifiers.alt = some ModifierType.RequireNotPressed ∧ onlyAltChanged sc sc2) ∧
    (∀ s2, Shortcuts.without_shift dbg ⟨sc :: rest, r⟩ = some s2 →
      ∃ sc2, s2.shortcuts = sc2 :: rest ∧ s2.repeats = r ∧
        sc2.modifiers.shift = some ModifierType.RequireNotPressed ∧ onlyShiftChanged sc sc2) ∧
    (∀ s2, Shortcuts.without_super dbg ⟨sc :: rest, r⟩ = some s2 →
      ∃ sc2, s2.shortcuts = sc2 :: rest ∧ s2.repeats = r ∧
        sc2.modifiers.super_key = some ModifierType.RequireNotPressed ∧ onlySuperChanged sc sc2) := by
  refine ⟨?_, ?_, ?_, ?_, ?_, ?_, ?_, ?_⟩ <;>
  · intro s2 h
    simp only [Shortcuts.with_ctrl, Shortcuts.with_alt, Shortcuts.with_shift,
      Shortcuts.with_super, Shortcuts.without_ctrl, Shortcuts.without_alt,
      Shortcuts.without_shift, Shortcuts.without_super] at h
    split at h
    · cases h
    · injection h with h
      subst h
      exact ⟨_, rfl, rfl, rfl, rfl, rfl, rfl, rfl⟩

theorem builders_touch_only_first_alt_witness :
    ∃ sc2, (⟨[⟨"KeyA", ⟨some ModifierType.RequirePressed, Option.none, Option.none, Option.none⟩⟩], false⟩ : Shortcuts).shortcuts = sc2 :: [] ∧
      (⟨[⟨"KeyA", ⟨some ModifierType.RequirePressed, Option.none, Option.none, Option.none⟩⟩], false⟩ : Shortcuts).repeats = false ∧
      sc2.modifiers.control = some ModifierType.RequirePressed ∧
      onlyControlChanged ⟨"KeyA", ⟨Option.none, Option.none, Option.none, Option.none⟩⟩ sc2 :=
  (builders_touch_only_first_alt false ⟨"KeyA", ⟨Option.none, Option.none, Option.none, Option.none⟩⟩ [] false).1
    ⟨[⟨"KeyA", ⟨some ModifierType.RequirePressed, Option.none, Option.none, Option.none⟩⟩], false⟩ rfl

/-- C9: the key label table maps every letter key KeyA..KeyZ to the bare
letter, every digit key Digit0..Digit9 to the bare digit, every numpad digit
and operator key to "Num " followed by the digit or operator symbol, every
function key F1..F35 to itself, and each left/right modifier key to its
single display name Ctrl, Alt, Shift or Super. -/
theorem key_display_table_ranges :
    ((List.range 26).all (fun i =>
        keyDisplayGet ("Key".push (Char.ofNat (65 + i))) ==
          some (String.singleton (Char.ofNat (65 + i)))) &&
     (List.range 10).all (fun d =>
        keyDisplayGet ("Digit" ++ toString d) == some (toString d)) &&
     (List.range 10).all (fun d =>
        keyDisplayGet ("Numpad" ++ toString d) == some ("Num " ++ toString d)) &&
     (List.range 35).all (fun i =>
        keyDisplayGet ("F" ++ toString (i + 1)) == some ("F" ++ toString (i + 1))) &&
     (keyDisplayGet "NumpadAdd" == some "Num +") &&
     (keyDisplayGet "NumpadSubtract" == some "Num -") &&
     (keyDisplayGet "NumpadMultiply" == some "Num *") &&
     (keyDisplayGet "NumpadDivide" == some "Num /") &&
     (keyDisplayGet "NumpadDecimal" == some "Num .") &&
     (keyDisplayGet "NumpadEqual" == some "Num =") &&
     (keyDisplayGet "NumpadStar" == some "Num *") &&
     (keyDisplayGet "ControlLeft" == some "Ctrl") &&
     (keyDisplayGet "ControlRight" == some "Ctrl") &&
     (keyDisplayGet "AltLeft" == some "Alt") &&
     (keyDisplayGet "AltRight" == some "Alt") &&
     (keyDisplayGet "ShiftLeft" == some "Shift") &&
     (keyDisplayGet "ShiftRight" == some "Shift") &&
     (keyDisplayGet "SuperLeft" == some "Super") &&
     (keyDisplayGet "SuperRight" == some "Super")) = true := by
  decide

end BevyKeyboardShortcuts
